import Mathlib

/-!
Shallow embedding of the invocation layer of `src/agent.py` (the function
`invoke_agent` together with the module-level rate-limiter state, result cache
and metrics counters), plus `get_metrics`.

Modelling conventions:
* Python wall-clock times (`time.time()`) are integers.  `invoke_agent` in the
  source reads the clock three times: once for `now` (line 197), once when the
  call timestamp is recorded (line 242) and once when a successful response is
  stored in the cache (line 257).  The embedding takes these three values as
  explicit parameters `now`, `tStamp`, `tStore`.
* The external Agent Caller (`agent_executor.invoke`) is an oracle indexed by
  the attempt number (1-based, as in the Python `for attempt in range(1, 5)`):
  `caller : Nat → Except String String`, where an `Except.error msg` models an
  exception whose `str(e)` is `msg` and `Except.ok r` models a response.
* The Summarizer (`summarize_results`) is an opaque collaborator, passed in as
  a function `String → String`.
* `time.sleep` calls are recorded in the order performed in the `sleeps` field
  of the result (first the rate-limit wait, if positive, then each backoff).
* Mutable module state (`_metrics`, `_cache`, `_call_timestamps`) is threaded
  explicitly through `AgentState`.
-/

namespace Agent

/-- Structural test that the first list is an initial segment of the second. -/
def leadMatch : List Char → List Char → Bool
  | [], _ => true
  | _ :: _, [] => false
  | a :: as, b :: bs => a == b && leadMatch as bs

/-- Structural substring search over character lists. -/
def subSearch (needle : List Char) : List Char → Bool
  | [] => needle.isEmpty
  | c :: rest => leadMatch needle (c :: rest) || subSearch needle rest

/-- Python substring membership `needle in hay` for strings. -/
def containsSub (needle hay : String) : Bool :=
  subSearch needle.data hay.data

/-- Python `str.lower()` (character-wise lowercasing, as `String.toLower`
does; the claims only exercise ASCII arguments). -/
def strLower (s : String) : String :=
  ⟨s.data.map Char.toLower⟩

/-- The quota-signature test of line 266:
`"RESOURCE_EXHAUSTED" in msg or "429" in msg or "quota" in msg.lower()`. -/
def quotaSignature (msg : String) : Bool :=
  containsSub "RESOURCE_EXHAUSTED" msg || containsSub "429" msg ||
    containsSub "quota" (strLower msg)

/-- Python truthiness of an optional string (`None` and `""` are falsy). -/
def truthy : Option String → Bool
  | none => false
  | some s => !(s == "")

/-- One element of a `"messages"` list in a dict payload; `content = none`
models a message dict without a `"content"` key. -/
structure Msg where
  content : Option String
deriving DecidableEq, Repr

/-- A dict payload as `invoke_agent` inspects it.  A field is `none` when the
corresponding key is absent from the dict.  The `search_results` value is
modelled by the text handed to the Summarizer. -/
structure DictPayload where
  input : Option String
  query : Option String
  message : Option String
  messages : Option (List Msg)
  search_results : Option String
deriving DecidableEq, Repr

/-- The payload shapes the source documents (`payload` may be a string or
dict, line 157). -/
inductive Payload where
  | str (s : String)
  | dict (d : DictPayload)
deriving DecidableEq, Repr

/-- Errors an invocation can surface.  `attributeError` is Python's
`AttributeError` (raised by `payload.get` on a `str`), `indexError` is
`IndexError` (raised by `_call_timestamps[0]` on an empty deque),
`rateLimit` is the `RuntimeError` of line 230, and `upstream msg` is a
propagated Agent Caller exception whose `str` is `msg`. -/
inductive InvokeError where
  | attributeError
  | indexError
  | rateLimit
  | upstream (msg : String)
deriving DecidableEq, Repr

/-- Lines 166-172: `payload.get("input") or payload.get("query") or
payload.get("message")`, kept as `none` when every alternative is falsy
(the later `if not input_text` guards make falsy values interchangeable). -/
def firstTruthy (d : DictPayload) : Option String :=
  if truthy d.input then d.input
  else if truthy d.query then d.query
  else if truthy d.message then d.message
  else none

/-- Line 172: `"\n".join([m.get("content", "") for m in msgs if m.get("content")])`. -/
def joinMessages (msgs : List Msg) : String :=
  String.intercalate "\n"
    ((msgs.filter (fun m => truthy m.content)).map (fun m => m.content.getD ""))

/-- Lines 161-184 of `invoke_agent`: normalize the payload to a single input
text.  For a string payload the guard `if "search_results" in payload`
(line 180) is Python *substring* containment, and when it holds the next
line calls `payload.get`, which does not exist on `str`, raising
`AttributeError`; the embedding reproduces that fault path. -/
def normalizeText (summarize : String → String) : Payload → Except InvokeError String
  | .str s =>
      if containsSub "search_results" s then .error .attributeError
      else .ok s
  | .dict d =>
      let t0 := firstTruthy d
      let t1 :=
        if !truthy t0 then
          match d.messages with
          | some msgs => if msgs.isEmpty then t0 else some (joinMessages msgs)
          | none => t0
        else t0
      -- line 176-177: `if not input_text: input_text = ""`
      let t2 := t1.getD ""
      match d.search_results with
      | some sr => .ok (t2 ++ "\n\n## Search Context:\n" ++ summarize sr)
      | none => .ok t2

/-- The system prompt of lines 51-102 (a fixed module-level constant). -/
def system_prompt : String :=
  "You are an expert international job opportunity researcher.\n\nSTRICT RULES:\n- Use the search tool. \n- Only return REAL and CURRENT opportunities\n- MUST accept international applicants\n- MUST include visa sponsorship, LMIA, or relocation support\n- Ignore expired or unofficial sources\n\nFOCUS:\n- Germany (Ausbildung)\n- Canada (Visa sponsorship / LMIA)\n\nOUTPUT FORMAT:\nYou MUST return your response as READABLE TEXT in the following format. This text will be sent directly via email, so make it clear and professional.\n\nFormat each job opportunity exactly like this:\n\nJob 1:\n  title: [Clear, descriptive job title]\n  description: [Detailed job description including responsibilities, requirements, and key information about the role]\n  Country: [Full country name]\n  City/Region: [Specific city or region name]\n  Field: [Industry or field of work, e.g., \"Software Engineering\", \"Healthcare\", \"Engineering\"]\n  Language Level: [Specific language requirements, e.g., \"German B2 level required\", \"English proficiency required\"]\n  Visa Information: [Detailed visa/sponsorship information, e.g., \"Work visa sponsorship available\", \"LMIA approved position\"]\n  Salary: [Specific salary range or compensation details, e.g., \"€50,000 - €70,000 per year\"]\n  Official Link: [Valid URL to the official job posting]\n\nJob 2:\n  title: [Next job title]\n  description: [Detailed job description]\n  Country: [Country]\n  City/Region: [City/Region]\n  Field: [Field]\n  Language Level: [Language requirements]\n  Visa Information: [Visa details]\n  Salary: [Salary information]\n  Official Link: [Link]\n\nContinue this format for all opportunities found.\n\nIMPORTANT:\n- Start with \"Found X new job opportunity/opportunities:\" if you have results\n- Use \"Job 1:\", \"Job 2:\", etc. for numbering\n- Always include \"title:\" and \"description:\" fields for each job\n- Description should be comprehensive and informative (2-4 sentences)\n- Make all information complete, detailed, and human-readable\n- If no opportunities found, return \"No new opportunities found.\"\n- Do NOT use JSON format - return plain readable text only\n- Do NOT use bullet points (•) - use the format shown above with field names followed by colons\n"

/-- Lines 187-192: the normalized agent payload, an ordered pair of the
(system role, fixed system prompt) and (user role, input text) messages. -/
structure NormalizedPayload where
  system : String
  user : String
deriving DecidableEq, Repr

/-- Line 195: `key = json.dumps(normalized_payload, sort_keys=True)`.
`json.dumps` with sorted keys is a deterministic, injective serialization of
the normalized payload, so the key is modelled by the payload itself. -/
def invocationKey (inputText : String) : NormalizedPayload :=
  ⟨system_prompt, inputText⟩

/-- The `_metrics` dict of lines 137-145. -/
structure Metrics where
  total_invocations : Nat
  model_calls : Nat
  cache_hits : Nat
  cache_misses : Nat
  rate_limited_waits : Nat
  retries : Nat
  errors : Nat
deriving DecidableEq, Repr

/-- All counters start at zero (lines 137-145). -/
def Metrics.init : Metrics := ⟨0, 0, 0, 0, 0, 0, 0⟩

/-- The `_cache` dict: key to (timestamp written, response). -/
abbrev Cache := List (NormalizedPayload × Int × String)

/-- Dict lookup `_cache.get(key)`. -/
def cacheGet (c : Cache) (k : NormalizedPayload) : Option (Int × String) :=
  match c.find? (fun e => decide (e.1 = k)) with
  | some e => some e.2
  | none => none

/-- Dict store `_cache[key] = (t, v)` (unconditional overwrite). -/
def cachePut (c : Cache) (k : NormalizedPayload) (t : Int) (v : String) : Cache :=
  (k, t, v) :: c.filter (fun e => !(decide (e.1 = k)))

/-- The module-level mutable state: metrics, cache and the `_call_timestamps`
deque (oldest first). -/
structure AgentState where
  metrics : Metrics
  cache : Cache
  callTimestamps : List Int
deriving DecidableEq, Repr

/-- The configuration constants of lines 119-121: `USE_GEMINI`, `RATE_LIMIT`,
`MAX_WAIT_SECONDS`, `CACHE_TTL`. -/
structure Config where
  useGemini : Bool
  rateLimit : Nat
  maxWaitSeconds : Int
  cacheTTL : Int
deriving DecidableEq, Repr

/-- `get_metrics` (lines 149-151): a point-in-time copy of the counters. -/
def get_metrics (st : AgentState) : Metrics := st.metrics

/-- Lines 222-223: `while _call_timestamps and now - _call_timestamps[0] > 60:
popleft()`. -/
def pruneTimestamps (now : Int) (ts : List Int) : List Int :=
  ts.dropWhile (fun t => decide (now - t > 60))

/-- The result of one `invoke_agent` call: the final module state, the list of
`time.sleep` durations performed (in order), and the outcome. -/
structure InvokeResult where
  state : AgentState
  sleeps : List Int
  outcome : Except InvokeError String
deriving Repr

/-- The retry loop of lines 244-277 (`max_attempts = 4`, `backoff` starts at 1,
doubles and is capped at 30).  `fuel` counts the attempts still allowed and
`attempt` is the 1-based attempt number; `lastExc` is `last_exc`.  When the
fuel runs out the loop re-raises `last_exc` (line 277); with the source's
`max_attempts = 4` the body has always run, so `lastExc` is set there. -/
def attemptLoop (caller : Nat → Except String String) :
    Nat → Nat → Int → Option String → Metrics → List Int →
      Metrics × List Int × Except InvokeError String
  | 0, _, _, lastExc, m, sleeps => (m, sleeps, .error (.upstream (lastExc.getD "")))
  | fuel + 1, attempt, backoff, _, m, sleeps =>
      let m1 := { m with model_calls := m.model_calls + 1 }
      match caller attempt with
      | .ok result => (m1, sleeps, .ok result)
      | .error msg =>
          let m2 := { m1 with errors := m1.errors + 1 }
          if quotaSignature msg then
            attemptLoop caller fuel (attempt + 1) (min (backoff * 2) 30) (some msg)
              { m2 with retries := m2.retries + 1 } (sleeps ++ [backoff])
          else
            (m2, sleeps, .error (.upstream msg))

/-- Lines 234-236: when the admission wait is positive, the
`rate_limited_waits` counter is incremented before sleeping. -/
def rlBump (wait : Int) (m : Metrics) : Metrics :=
  if wait > 0 then { m with rate_limited_waits := m.rate_limited_waits + 1 } else m

/-- Line 238: `time.sleep(wait)` happens only for a positive wait. -/
def rateSleeps (wait : Int) : List Int :=
  if wait > 0 then [wait] else []

/-- Lines 234-258 given the admission wait: the optional rate-limit sleep
(lines 234-238), the timestamp recording (lines 241-242), the retry loop, and
on success the cache store (lines 256-257). -/
def callPhase (caller : Nat → Except String String) (tStamp tStore : Int)
    (key : NormalizedPayload) (wait : Int) (m : Metrics) (cache : Cache)
    (ts : List Int) : InvokeResult :=
  match attemptLoop caller 4 1 1 none (rlBump wait m) [] with
  | (m2, bSleeps, .ok r) =>
      ⟨⟨m2, cachePut cache key tStore r, ts ++ [tStamp]⟩, rateSleeps wait ++ bSleeps, .ok r⟩
  | (m2, bSleeps, .error e) =>
      ⟨⟨m2, cache, ts ++ [tStamp]⟩, rateSleeps wait ++ bSleeps, .error e⟩

/-- The admission decision of lines 217-232.  Returns the computed wait and
the (possibly pruned) timestamp log, or the error raised together with the
pruned log as the deque stands when the exception leaves the block.
`indexError` is `_call_timestamps[0]` on an empty deque (reachable only when
`RATE_LIMIT = 0`); it is raised before the `errors` counter is touched. -/
def admission (cfg : Config) (now : Int) (ts0 : List Int) :
    Except (InvokeError × List Int) (Int × List Int) :=
  if cfg.useGemini then
    let ts := pruneTimestamps now ts0
    if cfg.rateLimit ≤ ts.length then
      match ts.head? with
      | none => .error (.indexError, ts)
      | some oldest =>
          let wait := 60 - (now - oldest)
          if wait > cfg.maxWaitSeconds then .error (.rateLimit, ts)
          else .ok (wait, ts)
    else .ok (0, ts)
  else .ok (0, ts0)

/-- The cache-miss path of `invoke_agent`: admission followed by the call
phase.  On a `rateLimit` refusal the `errors` counter is incremented
(lines 228-229) before the exception propagates. -/
def missPath (cfg : Config) (caller : Nat → Except String String)
    (now tStamp tStore : Int) (key : NormalizedPayload) (m : Metrics)
    (cache : Cache) (ts0 : List Int) : InvokeResult :=
  match admission cfg now ts0 with
  | .error (.rateLimit, ts) =>
      ⟨⟨{ m with errors := m.errors + 1 }, cache, ts⟩, [], .error .rateLimit⟩
  | .error (e, ts) => ⟨⟨m, cache, ts⟩, [], .error e⟩
  | .ok (wait, ts) => callPhase caller tStamp tStore key wait m cache ts

/-- Line 200: `_metrics["total_invocations"] += 1` followed by the miss branch
increment of line 214 (the updates touch distinct fields, so the combined
record update equals the two sequential ones). -/
def probeMissMetrics (m : Metrics) : Metrics :=
  { m with total_invocations := m.total_invocations + 1,
           cache_misses := m.cache_misses + 1 }

/-- Line 200 followed by the hit branch increment of line 209. -/
def probeHitMetrics (m : Metrics) : Metrics :=
  { m with total_invocations := m.total_invocations + 1,
           cache_hits := m.cache_hits + 1 }

/-- Lines 194-277 after normalization succeeded with `inputText`: key
construction, the cache probe (hit iff an entry exists and
`now - entry[0] < CACHE_TTL`), then the miss path. -/
def pipeline (cfg : Config) (caller : Nat → Except String String)
    (now tStamp tStore : Int) (st : AgentState) (inputText : String) : InvokeResult :=
  let key := invocationKey inputText
  match cacheGet st.cache key with
  | some (tw, v) =>
      if now - tw < cfg.cacheTTL then
        ⟨⟨probeHitMetrics st.metrics, st.cache, st.callTimestamps⟩, [], .ok v⟩
      else
        missPath cfg caller now tStamp tStore key (probeMissMetrics st.metrics)
          st.cache st.callTimestamps
  | none =>
      missPath cfg caller now tStamp tStore key (probeMissMetrics st.metrics)
        st.cache st.callTimestamps

/-- `invoke_agent(payload)` (lines 154-277).  A normalization fault (the
`AttributeError` of the string `search_results` guard) escapes before any
counter is touched. -/
def invoke_agent (cfg : Config) (summarize : String → String)
    (caller : Nat → Except String String) (now tStamp tStore : Int)
    (st : AgentState) (payload : Payload) : InvokeResult :=
  match normalizeText summarize payload with
  | .error e => ⟨st, [], .error e⟩
  | .ok t => pipeline cfg caller now tStamp tStore st t

/-- The hit condition of lines 205-215 as a single probe: the value returned
on a hit, `none` when the entry is absent or its age has reached the TTL. -/
def cacheHit (cfg : Config) (now : Int) (c : Cache) (k : NormalizedPayload) :
    Option String :=
  match cacheGet c k with
  | some (tw, v) => if now - tw < cfg.cacheTTL then some v else none
  | none => none

/-- The default configuration when `USE_GEMINI` is false (lines 119-121 with
default environment): rate limiting effectively disabled. -/
def ollamaConfig : Config := ⟨false, 999, 30, 600⟩

/-- The default configuration when `USE_GEMINI` is true: 2 requests per
minute, 30 s maximum wait, 600 s cache TTL. -/
def geminiConfig : Config := ⟨true, 2, 30, 600⟩

/-- The process-start state: zero counters, empty cache, empty deque. -/
def initialState : AgentState := ⟨Metrics.init, [], []⟩

/-- An Agent Caller that succeeds with `r` on every attempt. -/
def okCaller (r : String) : Nat → Except String String := fun _ => .ok r

/-- An Agent Caller that raises an error with message `msg` on every attempt. -/
def failCaller (msg : String) : Nat → Except String String := fun _ => .error msg

/-- An Agent Caller that raises `msg` on the first two attempts and succeeds
with `r` from the third on. -/
def failTwiceCaller (msg r : String) : Nat → Except String String :=
  fun i => if i ≤ 2 then .error msg else .ok r

/-! Support lemmas shared by the claim theorems. -/

theorem rlBump_total (wait : Int) (m : Metrics) :
    (rlBump wait m).total_invocations = m.total_invocations := by
  unfold rlBump; split <;> rfl

theorem rlBump_hits (wait : Int) (m : Metrics) :
    (rlBump wait m).cache_hits = m.cache_hits := by
  unfold rlBump; split <;> rfl

theorem rlBump_misses (wait : Int) (m : Metrics) :
    (rlBump wait m).cache_misses = m.cache_misses := by
  unfold rlBump; split <;> rfl

theorem rlBump_model_calls (wait : Int) (m : Metrics) :
    (rlBump wait m).model_calls = m.model_calls := by
  unfold rlBump; split <;> rfl

theorem rlBump_retries (wait : Int) (m : Metrics) :
    (rlBump wait m).retries = m.retries := by
  unfold rlBump; split <;> rfl

theorem rlBump_errors (wait : Int) (m : Metrics) :
    (rlBump wait m).errors = m.errors := by
  unfold rlBump; split <;> rfl

/-- The retry loop never touches the probe-side counters
(`total_invocations`, `cache_hits`, `cache_misses`, `rate_limited_waits`). -/
theorem attemptLoop_preserves (caller : Nat → Except String String) (fuel : Nat) :
    ∀ (attempt : Nat) (backoff : Int) (lastExc : Option String) (m : Metrics)
      (sleeps : List Int),
      (attemptLoop caller fuel attempt backoff lastExc m sleeps).1.total_invocations
          = m.total_invocations ∧
      (attemptLoop caller fuel attempt backoff lastExc m sleeps).1.cache_hits
          = m.cache_hits ∧
      (attemptLoop caller fuel attempt backoff lastExc m sleeps).1.cache_misses
          = m.cache_misses ∧
      (attemptLoop caller fuel attempt backoff lastExc m sleeps).1.rate_limited_waits
          = m.rate_limited_waits := by
  induction fuel with
  | zero => intro attempt backoff lastExc m sleeps; simp [attemptLoop]
  | succ fuel ih =>
      intro attempt backoff lastExc m sleeps
      simp only [attemptLoop]
      rcases h : caller attempt with msg | r
      · simp only [h]
        by_cases hq : quotaSignature msg
        · simpa [hq] using
            ih (attempt + 1) (min (backoff * 2) 30) (some msg) _ (sleeps ++ [backoff])
        · simp [hq]
      · simp [h]

/-- The retry loop's outcome is a success or a propagated upstream error,
never a rate-limit or normalization fault. -/
theorem attemptLoop_shape (caller : Nat → Except String String) (fuel : Nat) :
    ∀ (attempt : Nat) (backoff : Int) (lastExc : Option String) (m : Metrics)
      (sleeps : List Int),
      (∃ r, (attemptLoop caller fuel attempt backoff lastExc m sleeps).2.2 = .ok r) ∨
      (∃ msg, (attemptLoop caller fuel attempt backoff lastExc m sleeps).2.2
          = .error (.upstream msg)) := by
  induction fuel with
  | zero => intro attempt backoff lastExc m sleeps; right; exact ⟨_, rfl⟩
  | succ fuel ih =>
      intro attempt backoff lastExc m sleeps
      simp only [attemptLoop]
      rcases h : caller attempt with msg | r
      · simp only [h]
        by_cases hq : quotaSignature msg
        · simpa [hq] using
            ih (attempt + 1) (min (backoff * 2) 30) (some msg) _ (sleeps ++ [backoff])
        · right; exact ⟨msg, by simp [hq]⟩
      · left; exact ⟨r, by simp [h]⟩

/-- The call phase always appends exactly the recorded timestamp to the log. -/
theorem callPhase_callTimestamps (caller : Nat → Except String String)
    (tStamp tStore : Int) (key : NormalizedPayload) (wait : Int) (m : Metrics)
    (cache : Cache) (ts : List Int) :
    (callPhase caller tStamp tStore key wait m cache ts).state.callTimestamps
      = ts ++ [tStamp] := by
  unfold callPhase
  rcases h : attemptLoop caller 4 1 1 none (rlBump wait m) [] with ⟨m2, bS, out⟩
  cases out <;> simp [h]

/-- The call phase leaves the cache unchanged whenever it ends in an error. -/
theorem callPhase_cache_of_error (caller : Nat → Except String String)
    (tStamp tStore : Int) (key : NormalizedPayload) (wait : Int) (m : Metrics)
    (cache : Cache) (ts : List Int) (e : InvokeError)
    (h : (callPhase caller tStamp tStore key wait m cache ts).outcome = .error e) :
    (callPhase caller tStamp tStore key wait m cache ts).state.cache = cache := by
  unfold callPhase at h ⊢
  rcases hl : attemptLoop caller 4 1 1 none (rlBump wait m) [] with ⟨m2, bS, out⟩
  cases out <;> simp [hl] at h ⊢

/-- The call phase preserves the probe-side counters other than
`rate_limited_waits`. -/
theorem callPhase_probe_counts (caller : Nat → Except String String)
    (tStamp tStore : Int) (key : NormalizedPayload) (wait : Int) (m : Metrics)
    (cache : Cache) (ts : List Int) :
    (callPhase caller tStamp tStore key wait m cache ts).state.metrics.total_invocations
        = m.total_invocations ∧
    (callPhase caller tStamp tStore key wait m cache ts).state.metrics.cache_hits
        = m.cache_hits ∧
    (callPhase caller tStamp tStore key wait m cache ts).state.metrics.cache_misses
        = m.cache_misses := by
  have hp := attemptLoop_preserves caller 4 1 1 none (rlBump wait m) []
  unfold callPhase
  rcases hl : attemptLoop caller 4 1 1 none (rlBump wait m) [] with ⟨m2, bS, out⟩
  simp only [hl] at hp
  cases out <;>
    simp [hl, hp.1, hp.2.1, hp.2.2.1, rlBump_total, rlBump_hits, rlBump_misses]

/-- The call phase increments `rate_limited_waits` exactly when the wait is
positive. -/
theorem callPhase_rl_counts (caller : Nat → Except String String)
    (tStamp tStore : Int) (key : NormalizedPayload) (wait : Int) (m : Metrics)
    (cache : Cache) (ts : List Int) :
    (callPhase caller tStamp tStore key wait m cache ts).state.metrics.rate_limited_waits
      = (if wait > 0 then m.rate_limited_waits + 1 else m.rate_limited_waits) := by
  have hp := (attemptLoop_preserves caller 4 1 1 none (rlBump wait m) []).2.2.2
  unfold callPhase
  rcases hl : attemptLoop caller 4 1 1 none (rlBump wait m) [] with ⟨m2, bS, out⟩
  simp only [hl] at hp
  cases out <;> simp only [hl] <;>
    · show m2.rate_limited_waits = _
      rw [hp]
      unfold rlBump
      split <;> simp

/-- The call phase never raises a rate-limit, index or attribute error. -/
theorem callPhase_outcome_shape (caller : Nat → Except String String)
    (tStamp tStore : Int) (key : NormalizedPayload) (wait : Int) (m : Metrics)
    (cache : Cache) (ts : List Int) :
    (∃ r, (callPhase caller tStamp tStore key wait m cache ts).outcome = .ok r) ∨
    (∃ msg, (callPhase caller tStamp tStore key wait m cache ts).outcome
        = .error (.upstream msg)) := by
  have hs := attemptLoop_shape caller 4 1 1 none (rlBump wait m) []
  unfold callPhase
  rcases hl : attemptLoop caller 4 1 1 none (rlBump wait m) [] with ⟨m2, bS, out⟩
  rw [hl] at hs
  cases out <;> simp_all

/-- When admission returns a wait, the miss path is the call phase on the
pruned log. -/
theorem missPath_eq_callPhase (cfg : Config) (caller : Nat → Except String String)
    (now tStamp tStore : Int) (key : NormalizedPayload) (m : Metrics)
    (cache : Cache) (ts0 ts : List Int) (wait : Int)
    (hadm : admission cfg now ts0 = .ok (wait, ts)) :
    missPath cfg caller now tStamp tStore key m cache ts0 =
      callPhase caller tStamp tStore key wait m cache ts := by
  unfold missPath
  rw [hadm]

/-- A cache probe hit short-circuits the pipeline. -/
theorem pipeline_hit_eq (cfg : Config) (caller : Nat → Except String String)
    (now tStamp tStore : Int) (st : AgentState) (t v : String)
    (h : cacheHit cfg now st.cache (invocationKey t) = some v) :
    pipeline cfg caller now tStamp tStore st t =
      ⟨⟨probeHitMetrics st.metrics, st.cache, st.callTimestamps⟩, [], .ok v⟩ := by
  unfold pipeline
  unfold cacheHit at h
  rcases hc : cacheGet st.cache (invocationKey t) with _ | ⟨tw, v'⟩
  · rw [hc] at h; exact absurd h (by simp)
  · rw [hc] at h
    by_cases hts : now - tw < cfg.cacheTTL
    · simp only [hts, if_pos, Option.some.injEq] at h
      subst h
      simp [hc, hts]
    · simp [hts] at h

/-- A cache probe miss falls through to the miss path with the probe counters
bumped. -/
theorem pipeline_miss_eq (cfg : Config) (caller : Nat → Except String String)
    (now tStamp tStore : Int) (st : AgentState) (t : String)
    (h : cacheHit cfg now st.cache (invocationKey t) = none) :
    pipeline cfg caller now tStamp tStore st t =
      missPath cfg caller now tStamp tStore (invocationKey t)
        (probeMissMetrics st.metrics) st.cache st.callTimestamps := by
  unfold pipeline
  unfold cacheHit at h
  rcases hc : cacheGet st.cache (invocationKey t) with _ | ⟨tw, v'⟩
  · simp [hc]
  · rw [hc] at h
    by_cases hts : now - tw < cfg.cacheTTL
    · simp [hts] at h
    · simp [hc, hts]

/-- Admission can only fail with an index error or the rate-limit error. -/
theorem admission_error_shape (cfg : Config) (now : Int) (ts0 ts : List Int)
    (e : InvokeError) (h : admission cfg now ts0 = .error (e, ts)) :
    e = .indexError ∨ e = .rateLimit := by
  unfold admission at h
  by_cases hg : cfg.useGemini
  · simp only [hg, if_true] at h
    by_cases hlen : cfg.rateLimit ≤ (pruneTimestamps now ts0).length
    · simp only [hlen, if_pos] at h
      rcases hh : (pruneTimestamps now ts0).head? with _ | oldest
      · rw [hh] at h
        simp at h
        left; exact h.1.symm
      · rw [hh] at h
        simp only at h
        by_cases hw : 60 - (now - oldest) > cfg.maxWaitSeconds
        · simp [hw] at h
          right; exact h.1.symm
        · simp [hw] at h
    · simp [hlen] at h
  · simp [hg] at h

/-- The miss path leaves the cache unchanged whenever it ends in an error. -/
theorem missPath_cache_of_error (cfg : Config) (caller : Nat → Except String String)
    (now tStamp tStore : Int) (key : NormalizedPayload) (m : Metrics)
    (cache : Cache) (ts0 : List Int) (e : InvokeError)
    (h : (missPath cfg caller now tStamp tStore key m cache ts0).outcome = .error e) :
    (missPath cfg caller now tStamp tStore key m cache ts0).state.cache = cache := by
  unfold missPath at h ⊢
  rcases ha : admission cfg now ts0 with ⟨e', ts⟩ | ⟨wait, ts⟩
  · cases e' <;> simp
  · rw [ha] at h
    exact callPhase_cache_of_error caller tStamp tStore key wait m cache ts e h

/-- The miss path preserves `total_invocations`, `cache_hits` and
`cache_misses`. -/
theorem missPath_probe_counts (cfg : Config) (caller : Nat → Except String String)
    (now tStamp tStore : Int) (key : NormalizedPayload) (m : Metrics)
    (cache : Cache) (ts0 : List Int) :
    (missPath cfg caller now tStamp tStore key m cache ts0).state.metrics.total_invocations
        = m.total_invocations ∧
    (missPath cfg caller now tStamp tStore key m cache ts0).state.metrics.cache_hits
        = m.cache_hits ∧
    (missPath cfg caller now tStamp tStore key m cache ts0).state.metrics.cache_misses
        = m.cache_misses := by
  unfold missPath
  rcases ha : admission cfg now ts0 with ⟨e', ts⟩ | ⟨wait, ts⟩
  · cases e' <;> simp
  · exact callPhase_probe_counts caller tStamp tStore key wait m cache ts

/-- The miss path never raises an attribute error. -/
theorem missPath_no_attr (cfg : Config) (caller : Nat → Except String String)
    (now tStamp tStore : Int) (key : NormalizedPayload) (m : Metrics)
    (cache : Cache) (ts0 : List Int) :
    (missPath cfg caller now tStamp tStore key m cache ts0).outcome
      ≠ .error .attributeError := by
  unfold missPath
  rcases ha : admission cfg now ts0 with ⟨e', ts⟩ | ⟨wait, ts⟩
  · have := admission_error_shape cfg now ts0 ts e' ha
    rcases this with h | h <;> subst h <;> simp
  · rcases callPhase_outcome_shape caller tStamp tStore key wait m cache ts with
      ⟨r, hr⟩ | ⟨msg, hm⟩
    · show (callPhase caller tStamp tStore key wait m cache ts).outcome
        ≠ Except.error InvokeError.attributeError
      rw [hr]; simp
    · show (callPhase caller tStamp tStore key wait m cache ts).outcome
        ≠ Except.error InvokeError.attributeError
      rw [hm]; simp

/-- The pipeline increments `total_invocations` exactly once and then exactly
one of `cache_hits` and `cache_misses`. -/
theorem pipeline_probe_counts (cfg : Config) (caller : Nat → Except String String)
    (now tStamp tStore : Int) (st : AgentState) (t : String) :
    (pipeline cfg caller now tStamp tStore st t).state.metrics.total_invocations
        = st.metrics.total_invocations + 1 ∧
    ((pipeline cfg caller now tStamp tStore st t).state.metrics.cache_hits
          = st.metrics.cache_hits + 1 ∧
      (pipeline cfg caller now tStamp tStore st t).state.metrics.cache_misses
          = st.metrics.cache_misses ∨
      (pipeline cfg caller now tStamp tStore st t).state.metrics.cache_misses
          = st.metrics.cache_misses + 1 ∧
      (pipeline cfg caller now tStamp tStore st t).state.metrics.cache_hits
          = st.metrics.cache_hits) := by
  rcases hh : cacheHit cfg now st.cache (invocationKey t) with _ | v
  · rw [pipeline_miss_eq cfg caller now tStamp tStore st t hh]
    obtain ⟨h1, h2, h3⟩ := missPath_probe_counts cfg caller now tStamp tStore
      (invocationKey t) (probeMissMetrics st.metrics) st.cache st.callTimestamps
    exact ⟨h1.trans rfl, Or.inr ⟨h3.trans rfl, h2.trans rfl⟩⟩
  · rw [pipeline_hit_eq cfg caller now tStamp tStore st t v hh]
    exact ⟨rfl, Or.inl ⟨rfl, rfl⟩⟩

/-- The pipeline leaves the cache unchanged whenever it ends in an error. -/
theorem pipeline_cache_of_error (cfg : Config) (caller : Nat → Except String String)
    (now tStamp tStore : Int) (st : AgentState) (t : String) (e : InvokeError)
    (h : (pipeline cfg caller now tStamp tStore st t).outcome = .error e) :
    (pipeline cfg caller now tStamp tStore st t).state.cache = st.cache := by
  rcases hh : cacheHit cfg now st.cache (invocationKey t) with _ | v
  · rw [pipeline_miss_eq cfg caller now tStamp tStore st t hh] at h ⊢
    exact missPath_cache_of_error cfg caller now tStamp tStore (invocationKey t)
      (probeMissMetrics st.metrics) st.cache st.callTimestamps e h
  · rw [pipeline_hit_eq cfg caller now tStamp tStore st t v hh] at h
    simp at h

/-- The pipeline never raises an attribute error. -/
theorem pipeline_no_attr (cfg : Config) (caller : Nat → Except String String)
    (now tStamp tStore : Int) (st : AgentState) (t : String) :
    (pipeline cfg caller now tStamp tStore st t).outcome ≠ .error .attributeError := by
  rcases hh : cacheHit cfg now st.cache (invocationKey t) with _ | v
  · rw [pipeline_miss_eq cfg caller now tStamp tStore st t hh]
    exact missPath_no_attr cfg caller now tStamp tStore (invocationKey t)
      (probeMissMetrics st.metrics) st.cache st.callTimestamps
  · rw [pipeline_hit_eq cfg caller now tStamp tStore st t v hh]
    simp

/-- A normalized, cache-missing, admitted invocation is exactly the call
phase on the pruned log with the probe counters bumped. -/
theorem invoke_eq_callPhase (cfg : Config) (summarize : String → String)
    (caller : Nat → Except String String) (now tStamp tStore : Int)
    (st : AgentState) (p : Payload) (t : String) (wait : Int) (ts : List Int)
    (hn : normalizeText summarize p = .ok t)
    (hmiss : cacheHit cfg now st.cache (invocationKey t) = none)
    (hadm : admission cfg now st.callTimestamps = .ok (wait, ts)) :
    invoke_agent cfg summarize caller now tStamp tStore st p =
      callPhase caller tStamp tStore (invocationKey t) wait
        (probeMissMetrics st.metrics) st.cache ts := by
  unfold invoke_agent
  simp only [hn]
  rw [pipeline_miss_eq cfg caller now tStamp tStore st t hmiss]
  exact missPath_eq_callPhase cfg caller now tStamp tStore (invocationKey t)
    (probeMissMetrics st.metrics) st.cache st.callTimestamps ts wait hadm

/-- A normalized, cache-missing invocation refused by admission raises the
rate-limit error with the `errors` counter bumped and no caller attempt. -/
theorem invoke_eq_rateLimited (cfg : Config) (summarize : String → String)
    (caller : Nat → Except String String) (now tStamp tStore : Int)
    (st : AgentState) (p : Payload) (t : String) (ts : List Int)
    (hn : normalizeText summarize p = .ok t)
    (hmiss : cacheHit cfg now st.cache (invocationKey t) = none)
    (hadm : admission cfg now st.callTimestamps = .error (.rateLimit, ts)) :
    invoke_agent cfg summarize caller now tStamp tStore st p =
      ⟨⟨{ probeMissMetrics st.metrics with
            errors := (probeMissMetrics st.metrics).errors + 1 }, st.cache, ts⟩,
        [], .error .rateLimit⟩ := by
  unfold invoke_agent
  simp only [hn]
  rw [pipeline_miss_eq cfg caller now tStamp tStore st t hmiss]
  unfold missPath
  rw [hadm]

/-- The call phase projects onto the retry loop it runs. -/
theorem callPhase_proj (caller : Nat → Except String String)
    (tStamp tStore : Int) (key : NormalizedPayload) (wait : Int) (m : Metrics)
    (cache : Cache) (ts : List Int) :
    (callPhase caller tStamp tStore key wait m cache ts).outcome
        = (attemptLoop caller 4 1 1 none (rlBump wait m) []).2.2 ∧
    (callPhase caller tStamp tStore key wait m cache ts).state.metrics
        = (attemptLoop caller 4 1 1 none (rlBump wait m) []).1 ∧
    (callPhase caller tStamp tStore key wait m cache ts).sleeps
        = rateSleeps wait ++ (attemptLoop caller 4 1 1 none (rlBump wait m) []).2.1 := by
  unfold callPhase
  rcases hl : attemptLoop caller 4 1 1 none (rlBump wait m) [] with ⟨mf, sl, out⟩
  cases out <;> simp [hl]

/-- Four quota-signature failures: every attempt bumps `model_calls`,
`errors` and `retries`, and the loop re-raises the fourth message. -/
theorem attemptLoop_quota4 (caller : Nat → Except String String)
    (w x y z : String) (m : Metrics)
    (h1 : caller 1 = .error w) (h2 : caller 2 = .error x)
    (h3 : caller 3 = .error y) (h4 : caller 4 = .error z)
    (q1 : quotaSignature w = true) (q2 : quotaSignature x = true)
    (q3 : quotaSignature y = true) (q4 : quotaSignature z = true) :
    (attemptLoop caller 4 1 1 none m []).1.model_calls = m.model_calls + 4 ∧
    (attemptLoop caller 4 1 1 none m []).1.retries = m.retries + 4 ∧
    (attemptLoop caller 4 1 1 none m []).1.errors = m.errors + 4 ∧
    (attemptLoop caller 4 1 1 none m []).2.2 = .error (.upstream z) := by
  refine ⟨?_, ?_, ?_, ?_⟩ <;> simp [attemptLoop, h1, h2, h3, h4, q1, q2, q3, q4]

/-- A first failure without the quota signature stops the loop at once. -/
theorem attemptLoop_fatal1 (caller : Nat → Except String String)
    (w : String) (m : Metrics)
    (h1 : caller 1 = .error w) (q : quotaSignature w = false) :
    (attemptLoop caller 4 1 1 none m []).1.model_calls = m.model_calls + 1 ∧
    (attemptLoop caller 4 1 1 none m []).1.retries = m.retries ∧
    (attemptLoop caller 4 1 1 none m []).2.1 = [] ∧
    (attemptLoop caller 4 1 1 none m []).2.2 = .error (.upstream w) := by
  refine ⟨?_, ?_, ?_, ?_⟩ <;> simp [attemptLoop, h1, q]

/-- Two quota failures followed by a success: three calls, two retries. -/
theorem attemptLoop_recover3 (caller : Nat → Except String String)
    (w x r : String) (m : Metrics)
    (h1 : caller 1 = .error w) (h2 : caller 2 = .error x) (h3 : caller 3 = .ok r)
    (q1 : quotaSignature w = true) (q2 : quotaSignature x = true) :
    (attemptLoop caller 4 1 1 none m []).1.model_calls = m.model_calls + 3 ∧
    (attemptLoop caller 4 1 1 none m []).1.retries = m.retries + 2 ∧
    (attemptLoop caller 4 1 1 none m []).2.2 = .ok r := by
  refine ⟨?_, ?_, ?_⟩ <;> simp [attemptLoop, h1, h2, h3, q1, q2]

/-- Admission with rate limiting disabled: no pruning, wait 0. -/
theorem admission_disabled (cfg : Config) (now : Int) (ts0 : List Int)
    (hg : cfg.useGemini = false) :
    admission cfg now ts0 = .ok (0, ts0) := by
  unfold admission
  simp [hg]

/-- Admission under the limit after pruning: wait 0 on the pruned log. -/
theorem admission_under (cfg : Config) (now : Int) (ts0 : List Int)
    (hg : cfg.useGemini = true)
    (hlen : (pruneTimestamps now ts0).length < cfg.rateLimit) :
    admission cfg now ts0 = .ok (0, pruneTimestamps now ts0) := by
  unfold admission
  simp [hg, not_le.mpr hlen]

/-- Admission at or over the limit: the wait is measured from the oldest
surviving timestamp and compared against the maximum wait. -/
theorem admission_over (cfg : Config) (now : Int) (ts0 : List Int) (oldest : Int)
    (hg : cfg.useGemini = true)
    (hold : (pruneTimestamps now ts0).head? = some oldest)
    (hlen : cfg.rateLimit ≤ (pruneTimestamps now ts0).length) :
    admission cfg now ts0 =
      (if 60 - (now - oldest) > cfg.maxWaitSeconds
        then .error (.rateLimit, pruneTimestamps now ts0)
        else .ok (60 - (now - oldest), pruneTimestamps now ts0)) := by
  unfold admission
  simp [hg, hlen, hold]

/-! The claims. -/

/-- Claim C1, counterexample: for an Agent Caller that raises a
quota-signature error on every attempt, a fresh invocation performs 4
model-call attempts and propagates the error, but the `retries` counter ends
at 4, not at the 3 the claim states, because the loop also increments it on
the fourth (final) failed attempt. -/
theorem claim1_counterexample :
    (invoke_agent ollamaConfig id (failCaller "RESOURCE_EXHAUSTED") 0 0 0 initialState
        (.str "hi")).state.metrics.model_calls = 4 ∧
    (invoke_agent ollamaConfig id (failCaller "RESOURCE_EXHAUSTED") 0 0 0 initialState
        (.str "hi")).state.metrics.retries = 4 ∧
    ¬ ((invoke_agent ollamaConfig id (failCaller "RESOURCE_EXHAUSTED") 0 0 0 initialState
        (.str "hi")).state.metrics.retries = 3) ∧
    (invoke_agent ollamaConfig id (failCaller "RESOURCE_EXHAUSTED") 0 0 0 initialState
        (.str "hi")).outcome = .error (.upstream "RESOURCE_EXHAUSTED") :=
  ⟨rfl, rfl, by decide, rfl⟩

/-- Claim C1 (amended): for an Agent Caller that raises a quota-signature
error on every attempt, a normalized, cache-missing, admitted invocation
performs exactly 4 model-call attempts (`model_calls` grows by 4), counts 4
retries (the `retries` counter is incremented on every quota failure,
including the fourth and final attempt), and propagates the last underlying
error to the caller. -/
theorem claim1_exhaustion (cfg : Config) (summarize : String → String)
    (caller : Nat → Except String String) (now tStamp tStore : Int)
    (st : AgentState) (p : Payload) (t w x y z : String)
    (wait : Int) (ts : List Int)
    (hn : normalizeText summarize p = .ok t)
    (hmiss : cacheHit cfg now st.cache (invocationKey t) = none)
    (hadm : admission cfg now st.callTimestamps = .ok (wait, ts))
    (h1 : caller 1 = .error w) (h2 : caller 2 = .error x)
    (h3 : caller 3 = .error y) (h4 : caller 4 = .error z)
    (q1 : quotaSignature w = true) (q2 : quotaSignature x = true)
    (q3 : quotaSignature y = true) (q4 : quotaSignature z = true) :
    (invoke_agent cfg summarize caller now tStamp tStore st p).state.metrics.model_calls
        = st.metrics.model_calls + 4 ∧
    (invoke_agent cfg summarize caller now tStamp tStore st p).state.metrics.retries
        = st.metrics.retries + 4 ∧
    (invoke_agent cfg summarize caller now tStamp tStore st p).outcome
        = .error (.upstream z) := by
  rw [invoke_eq_callPhase cfg summarize caller now tStamp tStore st p t wait ts
    hn hmiss hadm]
  obtain ⟨ho, hm, -⟩ := callPhase_proj caller tStamp tStore (invocationKey t) wait
    (probeMissMetrics st.metrics) st.cache ts
  obtain ⟨hc4, hr4, -, hout⟩ := attemptLoop_quota4 caller w x y z
    (rlBump wait (probeMissMetrics st.metrics)) h1 h2 h3 h4 q1 q2 q3 q4
  refine ⟨?_, ?_, ?_⟩
  · rw [hm, hc4, rlBump_model_calls]; rfl
  · rw [hm, hr4, rlBump_retries]; rfl
  · rw [ho, hout]

/-- Witness for the amended claim C1: a concrete always-quota caller. -/
theorem claim1_exhaustion_witness :
    (invoke_agent ollamaConfig id (failCaller "quota exceeded") 5 6 7 initialState
        (.str "hello")).state.metrics.model_calls
      = initialState.metrics.model_calls + 4 ∧
    (invoke_agent ollamaConfig id (failCaller "quota exceeded") 5 6 7 initialState
        (.str "hello")).state.metrics.retries
      = initialState.metrics.retries + 4 ∧
    (invoke_agent ollamaConfig id (failCaller "quota exceeded") 5 6 7 initialState
        (.str "hello")).outcome = .error (.upstream "quota exceeded") :=
  claim1_exhaustion ollamaConfig id (failCaller "quota exceeded") 5 6 7 initialState
    (.str "hello") "hello" "quota exceeded" "quota exceeded" "quota exceeded"
    "quota exceeded" 0 [] rfl rfl rfl rfl rfl rfl rfl
    (by decide) (by decide) (by decide) (by decide)

/-- Claim C2: invoke retries only on the quota signature.  A first failure
without the quota signature propagates after one attempt with no retry and no
sleep; two quota failures followed by a success return that success with
three model calls and two retries. -/
theorem claim2_retry_policy (cfg : Config) (summarize : String → String)
    (now tStamp tStore : Int) (st : AgentState) (p : Payload) (t : String)
    (ts : List Int)
    (hn : normalizeText summarize p = .ok t)
    (hmiss : cacheHit cfg now st.cache (invocationKey t) = none)
    (hadm : admission cfg now st.callTimestamps = .ok (0, ts)) :
    (∀ (caller : Nat → Except String String) (w : String),
        caller 1 = .error w → quotaSignature w = false →
        (invoke_agent cfg summarize caller now tStamp tStore st p).state.metrics.model_calls
            = st.metrics.model_calls + 1 ∧
        (invoke_agent cfg summarize caller now tStamp tStore st p).state.metrics.retries
            = st.metrics.retries ∧
        (invoke_agent cfg summarize caller now tStamp tStore st p).sleeps = [] ∧
        (invoke_agent cfg summarize caller now tStamp tStore st p).outcome
            = .error (.upstream w)) ∧
    (∀ (caller : Nat → Except String String) (w x r : String),
        caller 1 = .error w → caller 2 = .error x → caller 3 = .ok r →
        quotaSignature w = true → quotaSignature x = true →
        (invoke_agent cfg summarize caller now tStamp tStore st p).state.metrics.model_calls
            = st.metrics.model_calls + 3 ∧
        (invoke_agent cfg summarize caller now tStamp tStore st p).state.metrics.retries
            = st.metrics.retries + 2 ∧
        (invoke_agent cfg summarize caller now tStamp tStore st p).outcome = .ok r) := by
  constructor
  · intro caller w h1 q
    rw [invoke_eq_callPhase cfg summarize caller now tStamp tStore st p t 0 ts
      hn hmiss hadm]
    obtain ⟨ho, hm, hs⟩ := callPhase_proj caller tStamp tStore (invocationKey t) 0
      (probeMissMetrics st.metrics) st.cache ts
    obtain ⟨hc1, hr1, hsl, hout⟩ := attemptLoop_fatal1 caller w
      (rlBump 0 (probeMissMetrics st.metrics)) h1 q
    refine ⟨?_, ?_, ?_, ?_⟩
    · rw [hm, hc1, rlBump_model_calls]; rfl
    · rw [hm, hr1, rlBump_retries]; rfl
    · rw [hs, hsl]; rfl
    · rw [ho, hout]
  · intro caller w x r h1 h2 h3 q1 q2
    rw [invoke_eq_callPhase cfg summarize caller now tStamp tStore st p t 0 ts
      hn hmiss hadm]
    obtain ⟨ho, hm, -⟩ := callPhase_proj caller tStamp tStore (invocationKey t) 0
      (probeMissMetrics st.metrics) st.cache ts
    obtain ⟨hc3, hr3, hout⟩ := attemptLoop_recover3 caller w x r
      (rlBump 0 (probeMissMetrics st.metrics)) h1 h2 h3 q1 q2
    refine ⟨?_, ?_, ?_⟩
    · rw [hm, hc3, rlBump_model_calls]; rfl
    · rw [hm, hr3, rlBump_retries]; rfl
    · rw [ho, hout]

/-- Witness for claim C2: a generic error aborts after one attempt; a
twice-quota-failing caller recovers on the third attempt. -/
theorem claim2_retry_policy_witness :
    ((invoke_agent ollamaConfig id (failCaller "boom") 0 0 0 initialState
        (.str "q")).state.metrics.model_calls
          = initialState.metrics.model_calls + 1 ∧
      (invoke_agent ollamaConfig id (failCaller "boom") 0 0 0 initialState
        (.str "q")).state.metrics.retries = initialState.metrics.retries ∧
      (invoke_agent ollamaConfig id (failCaller "boom") 0 0 0 initialState
        (.str "q")).sleeps = [] ∧
      (invoke_agent ollamaConfig id (failCaller "boom") 0 0 0 initialState
        (.str "q")).outcome = .error (.upstream "boom")) ∧
    ((invoke_agent ollamaConfig id (failTwiceCaller "RESOURCE_EXHAUSTED" "resp") 0 0 0
        initialState (.str "q")).state.metrics.model_calls
          = initialState.metrics.model_calls + 3 ∧
      (invoke_agent ollamaConfig id (failTwiceCaller "RESOURCE_EXHAUSTED" "resp") 0 0 0
        initialState (.str "q")).state.metrics.retries
          = initialState.metrics.retries + 2 ∧
      (invoke_agent ollamaConfig id (failTwiceCaller "RESOURCE_EXHAUSTED" "resp") 0 0 0
        initialState (.str "q")).outcome = .ok "resp") :=
  ⟨(claim2_retry_policy ollamaConfig id 0 0 0 initialState (.str "q") "q" []
      rfl rfl rfl).1 (failCaller "boom") "boom" rfl (by decide),
    (claim2_retry_policy ollamaConfig id 0 0 0 initialState (.str "q") "q" []
      rfl rfl rfl).2 (failTwiceCaller "RESOURCE_EXHAUSTED" "resp")
      "RESOURCE_EXHAUSTED" "RESOURCE_EXHAUSTED" "resp" rfl rfl rfl
      (by decide) (by decide)⟩

/-- Claim C3: two payloads that normalize to the same text; the second call,
issued while the cache entry is fresh, returns the cached response,
increments only `total_invocations` and `cache_hits`, performs no sleep, and
leaves `model_calls`, the cache and the timestamp log unchanged. -/
theorem claim3_cache_reuse (cfg : Config) (summarize : String → String)
    (caller1 caller2 : Nat → Except String String)
    (now1 tStamp1 tStore1 now2 tStamp2 tStore2 : Int)
    (st st1 : AgentState) (p1 p2 : Payload) (t r : String) (tw : Int)
    (hn1 : normalizeText summarize p1 = .ok t)
    (hn2 : normalizeText summarize p2 = .ok t)
    (hok : (invoke_agent cfg summarize caller1 now1 tStamp1 tStore1 st p1).outcome
        = .ok r)
    (hst1 : (invoke_agent cfg summarize caller1 now1 tStamp1 tStore1 st p1).state = st1)
    (hcg : cacheGet st1.cache (invocationKey t) = some (tw, r))
    (httl : now2 - tw < cfg.cacheTTL) :
    (invoke_agent cfg summarize caller2 now2 tStamp2 tStore2 st1 p2).outcome = .ok r ∧
    (invoke_agent cfg summarize caller2 now2 tStamp2 tStore2 st1 p2).state.metrics.total_invocations
        = st1.metrics.total_invocations + 1 ∧
    (invoke_agent cfg summarize caller2 now2 tStamp2 tStore2 st1 p2).state.metrics.cache_hits
        = st1.metrics.cache_hits + 1 ∧
    (invoke_agent cfg summarize caller2 now2 tStamp2 tStore2 st1 p2).state.metrics.model_calls
        = st1.metrics.model_calls ∧
    (invoke_agent cfg summarize caller2 now2 tStamp2 tStore2 st1 p2).state.metrics.cache_misses
        = st1.metrics.cache_misses ∧
    (invoke_agent cfg summarize caller2 now2 tStamp2 tStore2 st1 p2).state.callTimestamps
        = st1.callTimestamps ∧
    (invoke_agent cfg summarize caller2 now2 tStamp2 tStore2 st1 p2).state.cache
        = st1.cache ∧
    (invoke_agent cfg summarize caller2 now2 tStamp2 tStore2 st1 p2).sleeps = [] := by
  have hhit : cacheHit cfg now2 st1.cache (invocationKey t) = some r := by
    unfold cacheHit
    rw [hcg]
    simp [httl]
  have he : invoke_agent cfg summarize caller2 now2 tStamp2 tStore2 st1 p2 =
      ⟨⟨probeHitMetrics st1.metrics, st1.cache, st1.callTimestamps⟩, [], .ok r⟩ := by
    unfold invoke_agent
    simp only [hn2]
    exact pipeline_hit_eq cfg caller2 now2 tStamp2 tStore2 st1 t r hhit
  rw [he]
  exact ⟨rfl, rfl, rfl, rfl, rfl, rfl, rfl, rfl⟩

/-- Witness for claim C3: the same string payload twice; the second call hits
the cache written by the first. -/
theorem claim3_cache_reuse_witness :
    (invoke_agent ollamaConfig id (failCaller "x") 100 101 102
        ⟨⟨1, 1, 0, 1, 0, 0, 0⟩, [(invocationKey "q", 2, "r")], [1]⟩ (.str "q")).outcome
      = .ok "r" ∧
    (invoke_agent ollamaConfig id (failCaller "x") 100 101 102
        ⟨⟨1, 1, 0, 1, 0, 0, 0⟩, [(invocationKey "q", 2, "r")], [1]⟩
        (.str "q")).state.metrics.total_invocations
      = (⟨1, 1, 0, 1, 0, 0, 0⟩ : Metrics).total_invocations + 1 ∧
    (invoke_agent ollamaConfig id (failCaller "x") 100 101 102
        ⟨⟨1, 1, 0, 1, 0, 0, 0⟩, [(invocationKey "q", 2, "r")], [1]⟩
        (.str "q")).state.metrics.cache_hits
      = (⟨1, 1, 0, 1, 0, 0, 0⟩ : Metrics).cache_hits + 1 ∧
    (invoke_agent ollamaConfig id (failCaller "x") 100 101 102
        ⟨⟨1, 1, 0, 1, 0, 0, 0⟩, [(invocationKey "q", 2, "r")], [1]⟩
        (.str "q")).state.metrics.model_calls
      = (⟨1, 1, 0, 1, 0, 0, 0⟩ : Metrics).model_calls ∧
    (invoke_agent ollamaConfig id (failCaller "x") 100 101 102
        ⟨⟨1, 1, 0, 1, 0, 0, 0⟩, [(invocationKey "q", 2, "r")], [1]⟩
        (.str "q")).state.metrics.cache_misses
      = (⟨1, 1, 0, 1, 0, 0, 0⟩ : Metrics).cache_misses ∧
    (invoke_agent ollamaConfig id (failCaller "x") 100 101 102
        ⟨⟨1, 1, 0, 1, 0, 0, 0⟩, [(invocationKey "q", 2, "r")], [1]⟩
        (.str "q")).state.callTimestamps
      = (⟨⟨1, 1, 0, 1, 0, 0, 0⟩, [(invocationKey "q", 2, "r")], [1]⟩ : AgentState).callTimestamps ∧
    (invoke_agent ollamaConfig id (failCaller "x") 100 101 102
        ⟨⟨1, 1, 0, 1, 0, 0, 0⟩, [(invocationKey "q", 2, "r")], [1]⟩
        (.str "q")).state.cache
      = (⟨⟨1, 1, 0, 1, 0, 0, 0⟩, [(invocationKey "q", 2, "r")], [1]⟩ : AgentState).cache ∧
    (invoke_agent ollamaConfig id (failCaller "x") 100 101 102
        ⟨⟨1, 1, 0, 1, 0, 0, 0⟩, [(invocationKey "q", 2, "r")], [1]⟩ (.str "q")).sleeps
      = [] :=
  claim3_cache_reuse ollamaConfig id (okCaller "r") (failCaller "x") 0 1 2 100 101 102
    initialState ⟨⟨1, 1, 0, 1, 0, 0, 0⟩, [(invocationKey "q", 2, "r")], [1]⟩
    (.str "q") (.str "q") "q" "r" 2 rfl rfl rfl rfl
    (by simp [cacheGet, List.find?]) (by decide)

/-- Claim C4, counterexample: with the limit reached but the oldest surviving
timestamp exactly 60 seconds old, the computed wait is 0 and at most the
maximum, yet the call proceeds without incrementing `rate_limited_waits`,
against the claim's unconditional increment in that branch. -/
theorem claim4_counterexample :
    (1 : Nat) ≤ (pruneTimestamps 60 [0]).length ∧
    (pruneTimestamps 60 [0]).head? = some 0 ∧
    (60 : Int) - (60 - 0) = 0 ∧
    ¬ ((60 : Int) - (60 - 0) > (30 : Int)) ∧
    (invoke_agent ⟨true, 1, 30, 600⟩ id (okCaller "r") 60 61 62
        ⟨Metrics.init, [], [0]⟩ (.str "hi")).outcome = .ok "r" ∧
    (invoke_agent ⟨true, 1, 30, 600⟩ id (okCaller "r") 60 61 62
        ⟨Metrics.init, [], [0]⟩ (.str "hi")).state.metrics.rate_limited_waits = 0 ∧
    ¬ ((invoke_agent ⟨true, 1, 30, 600⟩ id (okCaller "r") 60 61 62
        ⟨Metrics.init, [], [0]⟩ (.str "hi")).state.metrics.rate_limited_waits
          = Metrics.init.rate_limited_waits + 1) :=
  ⟨by decide, rfl, by decide, by decide, rfl, rfl, by decide⟩

/-- Claim C4 (amended): with rate limiting enabled, admission for a
cache-missing invoke works as: after dropping timestamps older than 60
seconds, if fewer than the limit remain the call proceeds with wait 0;
otherwise, with wait = 60 - (now - oldest): if wait exceeds the maximum the
call raises the rate-limit error (incrementing `errors`, with no Agent
Caller attempt); if 0 < wait ≤ maximum the caller sleeps for wait seconds,
incrementing `rate_limited_waits`, and proceeds; and if wait = 0 (and at
most the maximum) the call proceeds immediately, without incrementing
`rate_limited_waits` — the increment accompanies only a positive wait. -/
theorem claim4_admission (cfg : Config) (summarize : String → String)
    (caller : Nat → Except String String) (now tStamp tStore : Int)
    (st : AgentState) (p : Payload) (t : String) (res : InvokeResult)
    (pruned : List Int)
    (hg : cfg.useGemini = true)
    (hn : normalizeText summarize p = .ok t)
    (hmiss : cacheHit cfg now st.cache (invocationKey t) = none)
    (hres : invoke_agent cfg summarize caller now tStamp tStore st p = res)
    (hpruned : pruneTimestamps now st.callTimestamps = pruned) :
    (pruned.length < cfg.rateLimit →
        res = callPhase caller tStamp tStore (invocationKey t) 0
            (probeMissMetrics st.metrics) st.cache pruned ∧
        res.state.metrics.rate_limited_waits = st.metrics.rate_limited_waits) ∧
    (∀ oldest : Int, pruned.head? = some oldest → cfg.rateLimit ≤ pruned.length →
      ((cfg.maxWaitSeconds < 60 - (now - oldest) →
          res = ⟨⟨{ probeMissMetrics st.metrics with
                      errors := (probeMissMetrics st.metrics).errors + 1 },
                    st.cache, pruned⟩, [], .error .rateLimit⟩ ∧
          res.state.metrics.errors = st.metrics.errors + 1 ∧
          res.state.metrics.model_calls = st.metrics.model_calls) ∧
        (0 < 60 - (now - oldest) → 60 - (now - oldest) ≤ cfg.maxWaitSeconds →
          res = callPhase caller tStamp tStore (invocationKey t)
              (60 - (now - oldest)) (probeMissMetrics st.metrics) st.cache pruned ∧
          res.state.metrics.rate_limited_waits
              = st.metrics.rate_limited_waits + 1 ∧
          ∃ bs, res.sleeps = (60 - (now - oldest)) :: bs) ∧
        (60 - (now - oldest) = 0 → 60 - (now - oldest) ≤ cfg.maxWaitSeconds →
          res = callPhase caller tStamp tStore (invocationKey t) 0
              (probeMissMetrics st.metrics) st.cache pruned ∧
          res.state.metrics.rate_limited_waits = st.metrics.rate_limited_waits))) := by
  subst hres
  subst hpruned
  constructor
  · intro hlen
    have hadm := admission_under cfg now st.callTimestamps hg hlen
    rw [invoke_eq_callPhase cfg summarize caller now tStamp tStore st p t 0 _
      hn hmiss hadm]
    refine ⟨rfl, ?_⟩
    rw [callPhase_rl_counts]
    simp [probeMissMetrics]
  · intro oldest hold hlen
    have hadm0 := admission_over cfg now st.callTimestamps oldest hg hold hlen
    refine ⟨?_, ?_, ?_⟩
    · intro hW
      have hadm : admission cfg now st.callTimestamps
          = .error (.rateLimit, pruneTimestamps now st.callTimestamps) := by
        rw [hadm0, if_pos hW]
      rw [invoke_eq_rateLimited cfg summarize caller now tStamp tStore st p t _
        hn hmiss hadm]
      refine ⟨rfl, ?_, ?_⟩ <;> simp [probeMissMetrics]
    · intro hpos hle
      have hadm : admission cfg now st.callTimestamps
          = .ok (60 - (now - oldest), pruneTimestamps now st.callTimestamps) := by
        rw [hadm0, if_neg (not_lt.mpr hle)]
      rw [invoke_eq_callPhase cfg summarize caller now tStamp tStore st p t _ _
        hn hmiss hadm]
      refine ⟨rfl, ?_, ?_⟩
      · rw [callPhase_rl_counts, if_pos hpos]
        simp [probeMissMetrics]
      · obtain ⟨-, -, hs⟩ := callPhase_proj caller tStamp tStore (invocationKey t)
          (60 - (now - oldest)) (probeMissMetrics st.metrics) st.cache
          (pruneTimestamps now st.callTimestamps)
        refine ⟨(attemptLoop caller 4 1 1 none
          (rlBump (60 - (now - oldest)) (probeMissMetrics st.metrics)) []).2.1, ?_⟩
        rw [hs]
        unfold rateSleeps
        rw [if_pos hpos]
        rfl
    · intro h0 hle
      have hadm : admission cfg now st.callTimestamps
          = .ok (0, pruneTimestamps now st.callTimestamps) := by
        rw [hadm0, if_neg (not_lt.mpr hle), h0]
      rw [invoke_eq_callPhase cfg summarize caller now tStamp tStore st p t 0 _
        hn hmiss hadm]
      refine ⟨rfl, ?_⟩
      rw [callPhase_rl_counts]
      simp [probeMissMetrics]

/-- Witness for the amended claim C4: two timestamps inside the window, limit
2, so the third call computes wait 30 ≤ 30, sleeps and proceeds. -/
theorem claim4_admission_witness :
    invoke_agent geminiConfig id (okCaller "r") 60 61 62
        ⟨Metrics.init, [], [30, 40]⟩ (.str "hi")
      = callPhase (okCaller "r") 61 62 (invocationKey "hi") (60 - (60 - 30))
          (probeMissMetrics Metrics.init) [] [30, 40] ∧
    (invoke_agent geminiConfig id (okCaller "r") 60 61 62
        ⟨Metrics.init, [], [30, 40]⟩ (.str "hi")).state.metrics.rate_limited_waits
      = Metrics.init.rate_limited_waits + 1 ∧
    ∃ bs, (invoke_agent geminiConfig id (okCaller "r") 60 61 62
        ⟨Metrics.init, [], [30, 40]⟩ (.str "hi")).sleeps = (60 - (60 - 30)) :: bs :=
  (((claim4_admission geminiConfig id (okCaller "r") 60 61 62
      ⟨Metrics.init, [], [30, 40]⟩ (.str "hi") "hi"
      (invoke_agent geminiConfig id (okCaller "r") 60 61 62
        ⟨Metrics.init, [], [30, 40]⟩ (.str "hi")) [30, 40]
      rfl rfl rfl rfl rfl).2 30 rfl (by decide)).2.1) (by decide) (by decide)

/-- Claim C5 is contradicted by the code: a string payload containing the
substring `search_results` trips the membership guard, and `payload.get` on
a `str` raises `AttributeError`, so normalization is not total on strings.
For benign strings the passthrough does hold. -/
theorem claim5_string_fault :
    normalizeText id (.str "search_results") = .error .attributeError ∧
    invoke_agent ollamaConfig id (okCaller "r") 0 0 0 initialState
        (.str "search_results")
      = ⟨initialState, [], .error .attributeError⟩ ∧
    normalizeText id (.str "plain question") = .ok "plain question" :=
  ⟨rfl, rfl, rfl⟩

/-- Claim C6: a cache entry written at time tw is returned as a hit by a
lookup strictly before tw + TTL, and treated as absent at tw + TTL or later,
falling through to the miss path (admission plus a fresh caller attempt)
with `cache_misses` incremented. -/
theorem claim6_ttl (cfg : Config) (summarize : String → String)
    (caller : Nat → Except String String) (now tStamp tStore : Int)
    (st : AgentState) (p : Payload) (t : String) (tw : Int) (v : String)
    (hn : normalizeText summarize p = .ok t)
    (hcg : cacheGet st.cache (invocationKey t) = some (tw, v)) :
    (now < tw + cfg.cacheTTL →
        invoke_agent cfg summarize caller now tStamp tStore st p
          = ⟨⟨probeHitMetrics st.metrics, st.cache, st.callTimestamps⟩, [], .ok v⟩) ∧
    (tw + cfg.cacheTTL ≤ now →
        invoke_agent cfg summarize caller now tStamp tStore st p
          = missPath cfg caller now tStamp tStore (invocationKey t)
              (probeMissMetrics st.metrics) st.cache st.callTimestamps ∧
        (invoke_agent cfg summarize caller now tStamp tStore st p).state.metrics.cache_misses
          = st.metrics.cache_misses + 1 ∧
        (invoke_agent cfg summarize caller now tStamp tStore st p).state.metrics.cache_hits
          = st.metrics.cache_hits) := by
  constructor
  · intro hlt
    have hhit : cacheHit cfg now st.cache (invocationKey t) = some v := by
      unfold cacheHit
      rw [hcg]
      simp [show now - tw < cfg.cacheTTL by omega]
    unfold invoke_agent
    simp only [hn]
    exact pipeline_hit_eq cfg caller now tStamp tStore st t v hhit
  · intro hge
    have hmiss : cacheHit cfg now st.cache (invocationKey t) = none := by
      unfold cacheHit
      rw [hcg]
      simp [show ¬ now - tw < cfg.cacheTTL by omega]
    have he : invoke_agent cfg summarize caller now tStamp tStore st p
        = missPath cfg caller now tStamp tStore (invocationKey t)
            (probeMissMetrics st.metrics) st.cache st.callTimestamps := by
      unfold invoke_agent
      simp only [hn]
      exact pipeline_miss_eq cfg caller now tStamp tStore st t hmiss
    obtain ⟨h1, h2, h3⟩ := missPath_probe_counts cfg caller now tStamp tStore
      (invocationKey t) (probeMissMetrics st.metrics) st.cache st.callTimestamps
    refine ⟨he, ?_, ?_⟩
    · rw [he, h3]; rfl
    · rw [he, h2]; rfl

/-- Witness for claim C6: a hit strictly inside the TTL and a miss at the
boundary, on an entry written at time 10 with TTL 600. -/
theorem claim6_ttl_witness :
    invoke_agent ollamaConfig id (failCaller "x") 100 1 2
        ⟨Metrics.init, [(invocationKey "k", 10, "v")], []⟩ (.str "k")
      = ⟨⟨probeHitMetrics Metrics.init, [(invocationKey "k", 10, "v")], []⟩,
          [], .ok "v"⟩ ∧
    (invoke_agent ollamaConfig id (okCaller "w") 610 1 2
        ⟨Metrics.init, [(invocationKey "k", 10, "v")], []⟩
        (.str "k")).state.metrics.cache_misses = Metrics.init.cache_misses + 1 :=
  ⟨(claim6_ttl ollamaConfig id (failCaller "x") 100 1 2
      ⟨Metrics.init, [(invocationKey "k", 10, "v")], []⟩ (.str "k") "k" 10 "v"
      rfl (by simp [cacheGet, List.find?])).1 (by decide),
    ((claim6_ttl ollamaConfig id (okCaller "w") 610 1 2
      ⟨Metrics.init, [(invocationKey "k", 10, "v")], []⟩ (.str "k") "k" 10 "v"
      rfl (by simp [cacheGet, List.find?])).2 (by decide)).2.1⟩

/-- Claim C7, counterexample: with rate limiting disabled, a cache-missing
invocation still appends the recorded call time to the timestamp log, so the
log is not left unmodified. -/
theorem claim7_counterexample :
    ollamaConfig.useGemini = false ∧
    (invoke_agent ollamaConfig id (okCaller "r") 0 7 8 initialState
        (.str "hi")).state.callTimestamps = [7] ∧
    ¬ ((invoke_agent ollamaConfig id (okCaller "r") 0 7 8 initialState
        (.str "hi")).state.callTimestamps = initialState.callTimestamps) :=
  ⟨rfl, rfl, by decide⟩

/-- Claim C7 (amended): with rate limiting disabled, a cache-missing
invocation performs no pruning and no admission check, incurs no rate-limit
wait and cannot raise the rate-limit error, but it still appends the
recorded call time to the timestamp log. -/
theorem claim7_disabled (cfg : Config) (summarize : String → String)
    (caller : Nat → Except String String) (now tStamp tStore : Int)
    (st : AgentState) (p : Payload) (t : String)
    (hg : cfg.useGemini = false)
    (hn : normalizeText summarize p = .ok t)
    (hmiss : cacheHit cfg now st.cache (invocationKey t) = none) :
    invoke_agent cfg summarize caller now tStamp tStore st p
      = callPhase caller tStamp tStore (invocationKey t) 0
          (probeMissMetrics st.metrics) st.cache st.callTimestamps ∧
    (invoke_agent cfg summarize caller now tStamp tStore st p).state.metrics.rate_limited_waits
      = st.metrics.rate_limited_waits ∧
    (invoke_agent cfg summarize caller now tStamp tStore st p).outcome
      ≠ .error .rateLimit ∧
    (invoke_agent cfg summarize caller now tStamp tStore st p).state.callTimestamps
      = st.callTimestamps ++ [tStamp] := by
  have hadm := admission_disabled cfg now st.callTimestamps hg
  have he := invoke_eq_callPhase cfg summarize caller now tStamp tStore st p t 0
    st.callTimestamps hn hmiss hadm
  refine ⟨he, ?_, ?_, ?_⟩
  · rw [he, callPhase_rl_counts]
    simp [probeMissMetrics]
  · rw [he]
    rcases callPhase_outcome_shape caller tStamp tStore (invocationKey t) 0
        (probeMissMetrics st.metrics) st.cache st.callTimestamps with
      ⟨r, hr⟩ | ⟨msg, hm⟩
    · rw [hr]; simp
    · rw [hm]; simp
  · rw [he, callPhase_callTimestamps]

/-- Witness for the amended claim C7 on a fresh state. -/
theorem claim7_disabled_witness :
    invoke_agent ollamaConfig id (okCaller "r") 0 7 8 initialState (.str "question")
      = callPhase (okCaller "r") 7 8 (invocationKey "question") 0
          (probeMissMetrics Metrics.init) [] [] ∧
    (invoke_agent ollamaConfig id (okCaller "r") 0 7 8 initialState
        (.str "question")).state.metrics.rate_limited_waits
      = Metrics.init.rate_limited_waits ∧
    (invoke_agent ollamaConfig id (okCaller "r") 0 7 8 initialState
        (.str "question")).outcome ≠ .error .rateLimit ∧
    (invoke_agent ollamaConfig id (okCaller "r") 0 7 8 initialState
        (.str "question")).state.callTimestamps = [] ++ [7] :=
  claim7_disabled ollamaConfig id (okCaller "r") 0 7 8 initialState
    (.str "question") "question" rfl rfl rfl

/-- Claim C8: the empty string is accepted as valid degenerate input — no
error is raised by normalization, the invocation runs the normal pipeline
with empty normalized text, reaches the cache probe (incrementing
`total_invocations`), and never surfaces the normalization fault. -/
theorem claim8_empty_payload (cfg : Config) (summarize : String → String)
    (caller : Nat → Except String String) (now tStamp tStore : Int)
    (st : AgentState) :
    normalizeText summarize (.str "") = .ok "" ∧
    invoke_agent cfg summarize caller now tStamp tStore st (.str "")
      = pipeline cfg caller now tStamp tStore st "" ∧
    (invoke_agent cfg summarize caller now tStamp tStore st
        (.str "")).state.metrics.total_invocations
      = st.metrics.total_invocations + 1 ∧
    (invoke_agent cfg summarize caller now tStamp tStore st (.str "")).outcome
      ≠ .error .attributeError := by
  have hn : normalizeText summarize (.str "") = .ok "" := rfl
  have he : invoke_agent cfg summarize caller now tStamp tStore st (.str "")
      = pipeline cfg caller now tStamp tStore st "" := by
    unfold invoke_agent
    simp only [hn]
  refine ⟨hn, he, ?_, ?_⟩
  · rw [he]
    exact (pipeline_probe_counts cfg caller now tStamp tStore st "").1
  · rw [he]
    exact pipeline_no_attr cfg caller now tStamp tStore st ""

/-- Witness for claim C8 on a fresh state. -/
theorem claim8_empty_payload_witness :
    normalizeText id (Payload.str "") = .ok "" ∧
    invoke_agent ollamaConfig id (okCaller "r") 0 1 2 initialState (.str "")
      = pipeline ollamaConfig (okCaller "r") 0 1 2 initialState "" ∧
    (invoke_agent ollamaConfig id (okCaller "r") 0 1 2 initialState
        (.str "")).state.metrics.total_invocations
      = initialState.metrics.total_invocations + 1 ∧
    (invoke_agent ollamaConfig id (okCaller "r") 0 1 2 initialState
        (.str "")).outcome ≠ .error .attributeError :=
  claim8_empty_payload ollamaConfig id (okCaller "r") 0 1 2 initialState

/-- Claim C9: the result cache is mutated only on a successful invocation;
any invocation that ends in an error leaves the cache exactly as it was. -/
theorem claim9_cache_untouched (cfg : Config) (summarize : String → String)
    (caller : Nat → Except String String) (now tStamp tStore : Int)
    (st : AgentState) (p : Payload) (e : InvokeError)
    (h : (invoke_agent cfg summarize caller now tStamp tStore st p).outcome
        = .error e) :
    (invoke_agent cfg summarize caller now tStamp tStore st p).state.cache
      = st.cache := by
  unfold invoke_agent at h ⊢
  rcases hn : normalizeText summarize p with e' | t
  · rfl
  · rw [hn] at h
    exact pipeline_cache_of_error cfg caller now tStamp tStore st t e h

/-- Witness for claim C9: a fatally failing caller leaves the cache alone. -/
theorem claim9_cache_untouched_witness :
    (invoke_agent ollamaConfig id (failCaller "boom") 0 0 0 initialState
        (.str "w")).state.cache = initialState.cache :=
  claim9_cache_untouched ollamaConfig id (failCaller "boom") 0 0 0 initialState
    (.str "w") (.upstream "boom") rfl

/-- Claim C10: `total_invocations = cache_hits + cache_misses` is preserved
by every invocation, whatever its outcome, and is what `get_metrics`
reports; an invocation either leaves all three counters unchanged (when
normalization raises before the probe) or increments `total_invocations`
once and then exactly one of `cache_hits` and `cache_misses` once. -/
theorem claim10_invariant (cfg : Config) (summarize : String → String)
    (caller : Nat → Except String String) (now tStamp tStore : Int)
    (st : AgentState) (p : Payload)
    (hinv : st.metrics.total_invocations
        = st.metrics.cache_hits + st.metrics.cache_misses) :
    (invoke_agent cfg summarize caller now tStamp tStore st p).state.metrics.total_invocations
      = (invoke_agent cfg summarize caller now tStamp tStore st p).state.metrics.cache_hits
        + (invoke_agent cfg summarize caller now tStamp tStore st p).state.metrics.cache_misses ∧
    (get_metrics (invoke_agent cfg summarize caller now tStamp tStore st p).state).total_invocations
      = (get_metrics (invoke_agent cfg summarize caller now tStamp tStore st p).state).cache_hits
        + (get_metrics (invoke_agent cfg summarize caller now tStamp tStore st p).state).cache_misses ∧
    ((invoke_agent cfg summarize caller now tStamp tStore st p).state.metrics.total_invocations
        = st.metrics.total_invocations ∧
      (invoke_agent cfg summarize caller now tStamp tStore st p).state.metrics.cache_hits
        = st.metrics.cache_hits ∧
      (invoke_agent cfg summarize caller now tStamp tStore st p).state.metrics.cache_misses
        = st.metrics.cache_misses ∨
      ((invoke_agent cfg summarize caller now tStamp tStore st p).state.metrics.total_invocations
          = st.metrics.total_invocations + 1 ∧
        ((invoke_agent cfg summarize caller now tStamp tStore st p).state.metrics.cache_hits
            = st.metrics.cache_hits + 1 ∧
          (invoke_agent cfg summarize caller now tStamp tStore st p).state.metrics.cache_misses
            = st.metrics.cache_misses ∨
          (invoke_agent cfg summarize caller now tStamp tStore st p).state.metrics.cache_misses
            = st.metrics.cache_misses + 1 ∧
          (invoke_agent cfg summarize caller now tStamp tStore st p).state.metrics.cache_hits
            = st.metrics.cache_hits))) := by
  rcases hn : normalizeText summarize p with e' | t
  · have he : invoke_agent cfg summarize caller now tStamp tStore st p
        = ⟨st, [], .error e'⟩ := by
      unfold invoke_agent
      simp only [hn]
    rw [he]
    exact ⟨hinv, hinv, Or.inl ⟨rfl, rfl, rfl⟩⟩
  · have he : invoke_agent cfg summarize caller now tStamp tStore st p
        = pipeline cfg caller now tStamp tStore st t := by
      unfold invoke_agent
      simp only [hn]
    rw [he]
    obtain ⟨h1, hd⟩ := pipeline_probe_counts cfg caller now tStamp tStore st t
    refine ⟨?_, ?_, Or.inr ⟨h1, hd⟩⟩
    · rcases hd with ⟨hh, hm⟩ | ⟨hm, hh⟩ <;> rw [h1, hh, hm] <;> omega
    · show (pipeline cfg caller now tStamp tStore st t).state.metrics.total_invocations
        = (pipeline cfg caller now tStamp tStore st t).state.metrics.cache_hits
          + (pipeline cfg caller now tStamp tStore st t).state.metrics.cache_misses
      rcases hd with ⟨hh, hm⟩ | ⟨hm, hh⟩ <;> rw [h1, hh, hm] <;> omega

/-- Witness for claim C10 on a fresh state and a successful call. -/
theorem claim10_invariant_witness :
    (invoke_agent ollamaConfig id (okCaller "r") 0 1 2 initialState
        (.str "z")).state.metrics.total_invocations
      = (invoke_agent ollamaConfig id (okCaller "r") 0 1 2 initialState
          (.str "z")).state.metrics.cache_hits
        + (invoke_agent ollamaConfig id (okCaller "r") 0 1 2 initialState
            (.str "z")).state.metrics.cache_misses ∧
    (get_metrics (invoke_agent ollamaConfig id (okCaller "r") 0 1 2 initialState
        (.str "z")).state).total_invocations
      = (get_metrics (invoke_agent ollamaConfig id (okCaller "r") 0 1 2 initialState
          (.str "z")).state).cache_hits
        + (get_metrics (invoke_agent ollamaConfig id (okCaller "r") 0 1 2 initialState
            (.str "z")).state).cache_misses ∧
    ((invoke_agent ollamaConfig id (okCaller "r") 0 1 2 initialState
        (.str "z")).state.metrics.total_invocations
        = initialState.metrics.total_invocations ∧
      (invoke_agent ollamaConfig id (okCaller "r") 0 1 2 initialState
        (.str "z")).state.metrics.cache_hits = initialState.metrics.cache_hits ∧
      (invoke_agent ollamaConfig id (okCaller "r") 0 1 2 initialState
        (.str "z")).state.metrics.cache_misses = initialState.metrics.cache_misses ∨
      ((invoke_agent ollamaConfig id (okCaller "r") 0 1 2 initialState
          (.str "z")).state.metrics.total_invocations
          = initialState.metrics.total_invocations + 1 ∧
        ((invoke_agent ollamaConfig id (okCaller "r") 0 1 2 initialState
            (.str "z")).state.metrics.cache_hits
            = initialState.metrics.cache_hits + 1 ∧
          (invoke_agent ollamaConfig id (okCaller "r") 0 1 2 initialState
            (.str "z")).state.metrics.cache_misses
            = initialState.metrics.cache_misses ∨
          (invoke_agent ollamaConfig id (okCaller "r") 0 1 2 initialState
            (.str "z")).state.metrics.cache_misses
            = initialState.metrics.cache_misses + 1 ∧
          (invoke_agent ollamaConfig id (okCaller "r") 0 1 2 initialState
            (.str "z")).state.metrics.cache_hits
            = initialState.metrics.cache_hits))) :=
  claim10_invariant ollamaConfig id (okCaller "r") 0 1 2 initialState (.str "z") rfl

end Agent
